import Mathlib

/-!
Verification development for the matchapphq/match-api mail-service.

The repository source under verification consists of
`src/services/mail-service/src/mail/mail.rs` (the `send_email` function) and
`src/services/mail-service/src/main.rs` (a stub entry point).  The spec
describes the completed delivery-pipeline design around that skeleton; the
components it specifies which have no code in the repository (Dispatcher,
Idempotency Store, Transport-Client failure classification, Event Consumer)
are modelled here directly from the spec text, each marked
`Modelled from the spec:` in its doc comment.  Everything else is a shallow
embedding of the Rust source.
-/

namespace MailService

/-- String constant: the name of the SMTP user environment variable read by
`send_email` (`std::env::var("SMTP_USER")` in mail.rs line 26). -/
def SMTP_USER : String := "SMTP_USER"

/-- String constant: the name of the SMTP password environment variable read by
`send_email` (`std::env::var("SMTP_PASS")` in mail.rs line 27). -/
def SMTP_PASS : String := "SMTP_PASS"

/-- The hardcoded sender address literal of mail.rs line 16. -/
def from_email_literal : String := "dev@matchapp.fr"

/-- The hardcoded relay endpoint of mail.rs line 29. -/
def relay_literal : String := "smtp.zoho.com:587"

/-- The error-context string attached to a failed transport send
(mail.rs line 32). -/
def zoho_context : String := "ZOHO failed !"

/-- The separator character of an email address. -/
def atSign : Char := '@'

/-- A parsed email address, modelling `lettre::Address` (a local part and a
domain). -/
structure Address where
  localPart : String
  domain : String
deriving DecidableEq

/-- Splits a character list at every occurrence of the separator `c`
(the pieces do not contain `c`; `n` separators yield `n + 1` pieces). -/
def splitOnChar (c : Char) : List Char → List (List Char)
  | [] => [[]]
  | x :: xs =>
    match splitOnChar c xs with
    | [] => if x = c then [[], []] else [[x]]
    | r :: rs => if x = c then [] :: r :: rs else (x :: r) :: rs

/-- Models the behaviour of `lettre`'s address parsing (`email.parse()?` in
mail.rs lines 17 and 20): a string parses iff it consists of exactly one
nonempty local part and one nonempty domain separated by a single at sign;
anything else is a parse error (`none`). -/
def parseAddress (s : String) : Option Address :=
  match splitOnChar atSign s.data with
  | [u, d] =>
    if u.isEmpty || d.isEmpty then none else some ⟨String.mk u, String.mk d⟩
  | _ => none

/-- MIME content type of a message; the code only ever uses
`ContentType::TEXT_HTML` (mail.rs line 21), but the type has other
inhabitants, which is what makes "always text/html" a real statement. -/
inductive ContentType where
  | textHtml
  | textPlain
deriving DecidableEq

/-- A built message, modelling `lettre::Message` as assembled by the builder
chain of mail.rs lines 18-24: from, to, content-type header, subject, body. -/
structure Message where
  fromAddr : Address
  toAddr : Address
  contentType : ContentType
  subject : String
  body : String
deriving DecidableEq

/-- Models `lettre`'s `MessageBuilder::body` finishing step (the value that
mail.rs line 24 calls `.unwrap()` on): building fails exactly when the
mandatory `from` or `to` field was never supplied, and succeeds otherwise. -/
def buildMessage (fromAddr toAddr : Option Address) (ct : ContentType)
    (subject body : String) : Option Message :=
  match fromAddr, toAddr with
  | some f, some t => some ⟨f, t, ct, subject, body⟩
  | _, _ => none

/-- SMTP credentials, modelling `lettre`'s `Credentials::new` pair
(mail.rs lines 25-28). -/
structure Credentials where
  user : String
  pass : String
deriving DecidableEq

/-- A constructed SMTP transport, modelling
`AsyncSmtpTransport::<Tokio1Executor>::relay(..).credentials(..).build()`
(mail.rs lines 29-31): the relay endpoint and the credentials it will
authenticate with. -/
structure AsyncSmtpTransport where
  relay : String
  creds : Credentials
deriving DecidableEq

/-- A failure reported by the SMTP relay or the network during one send
attempt.  The constructors enumerate the failure classes named by the spec:
network-level failures, connection timeouts, SMTP reply codes (4xx/5xx),
authentication rejection, and malformed-recipient rejection. -/
inductive SendError where
  | networkFailure (detail : String)
  | connectionTimeout
  | smtpReply (code : Nat) (detail : String)
  | authRejected
  | malformedRecipient
deriving DecidableEq

/-- How a run of `send_email` terminates: `ok` models `Ok(())`, `err` models
an `Err` value returned through `?` or `.context(..)?`, and `panicked` models
a Rust panic (the `.unwrap()` of mail.rs line 24 aborting the process). -/
inductive RunResult where
  | ok
  | err (msg : String)
  | panicked (msg : String)
deriving DecidableEq

/-- Is the run result a process crash (panic)? -/
def RunResult.isCrash : RunResult → Bool
  | .panicked _ => true
  | _ => false

/-- Error message for an address parse failure propagated by `?`. -/
def parse_error : String := "address parse error"

/-- Error message for a missing environment variable propagated by `?`. -/
def env_error : String := "environment variable not present"

/-- Panic message of the `.unwrap()` on the message builder. -/
def unwrap_panic : String := "called unwrap on an Err value"

/-- The observable trace of one `send_email` call: its result, every SMTP
transport it constructed, and every message it handed to `transport.send`. -/
structure SendTrace where
  result : RunResult
  transports : List AsyncSmtpTransport
  sends : List Message
deriving DecidableEq

/-- Shallow embedding of `send_email` (mail.rs lines 14-34).  Effects are made
explicit: `env` is the process environment (`std::env::var`), `relayBehavior`
is the outcome the relay produces for a submitted message (`none` = accepted,
`some e` = the send failed with `e`).  The control flow follows the source
line by line: parse the hardcoded sender, parse the recipient, build the
message and `.unwrap()` it, read `SMTP_USER` and `SMTP_PASS` from the
environment, construct the relay transport with those credentials, then send;
every fallible step before the send short-circuits with an error (`?`), and
the send result is wrapped with the `ZOHO failed !` context. -/
def send_email (env : String → Option String)
    (relayBehavior : Message → Option SendError)
    (email subject body : String) : SendTrace :=
  match parseAddress from_email_literal with
  | none => ⟨.err parse_error, [], []⟩
  | some fromAddr =>
    match parseAddress email with
    | none => ⟨.err parse_error, [], []⟩
    | some toAddr =>
      match buildMessage (some fromAddr) (some toAddr) ContentType.textHtml subject body with
      | none => ⟨.panicked unwrap_panic, [], []⟩
      | some built =>
        match env SMTP_USER with
        | none => ⟨.err env_error, [], []⟩
        | some u =>
          match env SMTP_PASS with
          | none => ⟨.err env_error, [], []⟩
          | some p =>
            let creds : Credentials := ⟨u, p⟩
            let transport : AsyncSmtpTransport := ⟨relay_literal, creds⟩
            let result : RunResult :=
              match relayBehavior built with
              | some _ => .err zoho_context
              | none => .ok
            ⟨result, [transport], [built]⟩

/-- Modelled from the spec: the `DeliveryOutcome` tagged variant of section 3,
produced by the Transport Client and consumed by the Dispatcher (the
repository has no Dispatcher or classification code; `send_email` returns an
unclassified error). -/
inductive DeliveryOutcome where
  | Sent
  | PermanentFailure (reason : String)
  | TransientFailure (reason : String)
deriving DecidableEq

/-- Reason string attached to a classified connection timeout. -/
def timeout_reason : String := "connection timeout"

/-- Reason string attached to a classified authentication rejection. -/
def auth_reason : String := "authentication rejected"

/-- Reason string attached to a classified malformed-recipient rejection. -/
def malformed_reason : String := "malformed recipient rejected"

/-- Modelled from the spec: the Transport Client classification policy of
section 4.4, absent from the repository code.  Network-level failures,
connection timeouts, and SMTP reply codes below 500 (the 4xx class) map to
`TransientFailure`; reply codes of 500 and above (the 5xx class),
authentication rejection, and malformed-recipient rejection map to
`PermanentFailure`. -/
def classify : SendError → DeliveryOutcome
  | .networkFailure d => .TransientFailure d
  | .connectionTimeout => .TransientFailure timeout_reason
  | .smtpReply code d =>
      if code < 500 then .TransientFailure d else .PermanentFailure d
  | .authRejected => .PermanentFailure auth_reason
  | .malformedRecipient => .PermanentFailure malformed_reason

/-- Modelled from the spec: the Dispatcher configuration of section 4.2
(`maxConcurrentSends`, `maxRetries`, `baseBackoff`, `backoffMultiplier`,
`maxBackoff`); durations are in abstract time units. -/
structure DispatcherConfig where
  maxConcurrentSends : Nat
  maxRetries : Nat
  baseBackoff : Nat
  backoffMultiplier : Nat
  maxBackoff : Nat
deriving DecidableEq

/-- Modelled from the spec: the backoff delay before the retry that follows a
transient failure of attempt `k`, namely
`min(baseBackoff * backoffMultiplier^(k-1), maxBackoff)` (section 4.2; the
jitter the spec adds on top is a nondeterministic perturbation and is not
modelled). -/
def backoffDelay (cfg : DispatcherConfig) (k : Nat) : Nat :=
  min (cfg.baseBackoff * cfg.backoffMultiplier ^ (k - 1)) cfg.maxBackoff

/-- Outcome of one full processing pass of the Dispatcher over one event:
how the attempt loop ended, how many SMTP send attempts it issued, the
backoff delays of the retries it scheduled, and whether the event was routed
to the dead-letter sink. -/
structure AttemptResult where
  final : DeliveryOutcome
  sendsIssued : Nat
  delays : List Nat
  deadLettered : Bool
deriving DecidableEq

/-- Modelled from the spec: the Dispatcher attempt loop of section 4.2,
parameterised by the remaining retry budget.  `attemptGo cfg send k n` runs
attempt `k` (whose outcome is `send k`) with `n` retries still allowed after
it: `Sent` is terminal success; `PermanentFailure` is dead-lettered with no
retry; `TransientFailure` schedules a retry after `backoffDelay cfg k` while
budget remains, and is otherwise treated as a `PermanentFailure` and
dead-lettered. -/
def attemptGo (cfg : DispatcherConfig) (send : Nat → DeliveryOutcome)
    (k : Nat) : Nat → AttemptResult
  | 0 =>
    match send k with
    | .Sent => ⟨.Sent, 1, [], false⟩
    | .PermanentFailure r => ⟨.PermanentFailure r, 1, [], true⟩
    | .TransientFailure r => ⟨.PermanentFailure r, 1, [], true⟩
  | n + 1 =>
    match send k with
    | .Sent => ⟨.Sent, 1, [], false⟩
    | .PermanentFailure r => ⟨.PermanentFailure r, 1, [], true⟩
    | .TransientFailure _ =>
      let rest := attemptGo cfg send (k + 1) n
      ⟨rest.final, rest.sendsIssued + 1, backoffDelay cfg k :: rest.delays,
        rest.deadLettered⟩

/-- Modelled from the spec: the attempt loop started at attempt `k`.  A
retry is allowed exactly while `attemptNumber < maxRetries` (section 4.2),
so the remaining budget at attempt `k` is `maxRetries - k`. -/
def attemptFrom (cfg : DispatcherConfig) (send : Nat → DeliveryOutcome)
    (k : Nat) : AttemptResult :=
  attemptGo cfg send k (cfg.maxRetries - k)

/-- Modelled from the spec: the Idempotency Store of section 4.5, a mapping
from `eventId` to its recorded terminal outcome. -/
def IdemStore : Type := List (String × DeliveryOutcome)

/-- Look up the recorded outcome for an event id. -/
def lookupRecord : IdemStore → String → Option DeliveryOutcome
  | [], _ => none
  | (k, v) :: rest, eid => if k = eid then some v else lookupRecord rest eid

/-- Result of the Dispatcher processing one incoming event: the updated
Idempotency Store, the terminal outcome reported, the number of SMTP send
attempts issued, whether the event was dead-lettered, and the scheduled
retry delays. -/
structure ProcessResult where
  store : IdemStore
  final : DeliveryOutcome
  sendCount : Nat
  deadLettered : Bool
  delays : List Nat

/-- Modelled from the spec: the Dispatcher algorithm of section 4.2 for one
incoming event.  First consult the Idempotency Store; a recorded outcome
(`AlreadySent` or `AlreadyFailed` from `checkAndReserve`) short-circuits to a
terminal report without contacting the transport.  Only a reservation
permits running the attempt loop, whose terminal outcome is then recorded in
the store. -/
def processEvent (cfg : DispatcherConfig) (store : IdemStore) (eid : String)
    (send : Nat → DeliveryOutcome) : ProcessResult :=
  match lookupRecord store eid with
  | some prior => ⟨store, prior, 0, false, []⟩
  | none =>
    let r := attemptFrom cfg send 1
    ⟨(eid, r.final) :: store, r.final, r.sendsIssued, r.deadLettered, r.delays⟩

/-- The three ways a single Dispatcher processing pass can terminate:
recorded success, dead-lettered failure, or a scheduled retry. -/
inductive PassOutcome where
  | recordedSuccess
  | deadLettered (reason : String)
  | scheduledRetry (delay : Nat)
deriving DecidableEq

/-- Modelled from the spec: the branch the Dispatcher takes on the
`DeliveryOutcome` of attempt `k` of an event (section 4.2), as a single
total step: `Sent` records success, `PermanentFailure` dead-letters, and
`TransientFailure` schedules a retry after `backoffDelay cfg k` when
`k < maxRetries` and dead-letters otherwise. -/
def dispatchPass (cfg : DispatcherConfig) (k : Nat)
    (outcome : DeliveryOutcome) : PassOutcome :=
  match outcome with
  | .Sent => .recordedSuccess
  | .PermanentFailure r => .deadLettered r
  | .TransientFailure r =>
    if k < cfg.maxRetries then .scheduledRetry (backoffDelay cfg k)
    else .deadLettered r

/-- State of the Dispatcher worker pool: how many events are still waiting
for an execution slot and how many SMTP sends are executing right now. -/
structure PoolState where
  pending : Nat
  inFlight : Nat
deriving DecidableEq

/-- Modelled from the spec: the backpressure mechanism of section 4.2 — a
worker may start a send only by acquiring one of `maxConcurrentSends = N`
execution slots, blocking while all are taken.  `acquire` moves a pending
event into flight only when strictly fewer than `N` sends are executing;
`release` completes an in-flight send. -/
inductive PoolStep (N : Nat) : PoolState → PoolState → Prop
  | acquire (s : PoolState) (hp : 0 < s.pending) (hf : s.inFlight < N) :
      PoolStep N s ⟨s.pending - 1, s.inFlight + 1⟩
  | release (s : PoolState) (h : 0 < s.inFlight) :
      PoolStep N s ⟨s.pending, s.inFlight - 1⟩

/-- The pool states reachable from a burst of `burst` simultaneous events
with no send yet in flight. -/
def PoolReachable (N burst : Nat) (s : PoolState) : Prop :=
  Relation.ReflTransGen (PoolStep N) ⟨burst, 0⟩ s

/-- Status of one event as tracked by the Consumer: not yet handed to the
Dispatcher, handed over and in flight, terminally resolved by the Dispatcher
with a reported outcome, or acknowledged to the broker. -/
inductive EvStatus where
  | pending
  | inFlight
  | resolved (o : DeliveryOutcome)
  | acked (o : DeliveryOutcome)
deriving DecidableEq

/-- Consumer-side processing state: the status of every event id. -/
def ConsumerState : Type := String → EvStatus

/-- Is a delivery outcome terminal (`Sent` or `PermanentFailure`)?  A
`TransientFailure` is not terminal: it only schedules a retry. -/
def DeliveryOutcome.isTerminal : DeliveryOutcome → Bool
  | .Sent => true
  | .PermanentFailure _ => true
  | .TransientFailure _ => false

/-- Point update of a consumer state. -/
def setStatus (s : ConsumerState) (eid : String) (v : EvStatus) :
    ConsumerState :=
  fun x => if x = eid then v else s x

/-- Modelled from the spec: the Consumer acknowledgement discipline of
section 4.1.  The Consumer hands a pending event to the Dispatcher
(`dispatch`); the Dispatcher reports a terminal `DeliveryOutcome` for an
in-flight event (`resolve`, which requires the outcome to be terminal); and
the Consumer acknowledges an event to the broker only once it carries a
reported terminal outcome (`acknowledge` is enabled only in a `resolved`
state). -/
inductive ConsumerStep : ConsumerState → ConsumerState → Prop
  | dispatch (s : ConsumerState) (eid : String) (h : s eid = .pending) :
      ConsumerStep s (setStatus s eid .inFlight)
  | resolve (s : ConsumerState) (eid : String) (o : DeliveryOutcome)
      (h : s eid = .inFlight) (ht : o.isTerminal = true) :
      ConsumerStep s (setStatus s eid (.resolved o))
  | acknowledge (s : ConsumerState) (eid : String) (o : DeliveryOutcome)
      (h : s eid = .resolved o) :
      ConsumerStep s (setStatus s eid (.acked o))

/-- The consumer state in which every event is still unprocessed. -/
def consumerInit : ConsumerState := fun _ => .pending

/-- The consumer states reachable from the initial all-pending state. -/
def ConsumerReachable (s : ConsumerState) : Prop :=
  Relation.ReflTransGen ConsumerStep consumerInit s

/-! Sample inputs used by the witness theorems. -/

/-- A sample environment supplying both SMTP credential variables. -/
def env_sample : String → Option String := fun v =>
  if v = SMTP_USER then some "alice"
  else if v = SMTP_PASS then some "secret" else none

/-- A relay that accepts every message. -/
def relay_accepts : Message → Option SendError := fun _ => none

/-- A sample valid recipient string. -/
def recipient_sample : String := "user@example.com"

/-- A sample recipient string that does not parse as an email address. -/
def bad_recipient : String := "not an address"

/-- A sample subject line. -/
def subject_sample : String := "New Match"

/-- A sample message body. -/
def body_sample : String := "<p>You have a new match</p>"

/-- A sample Dispatcher configuration: 4 concurrent sends, 3 retries,
100-unit base backoff, multiplier 2, 250-unit cap. -/
def cfg_sample : DispatcherConfig := ⟨4, 3, 100, 2, 250⟩

/-- A sample event id. -/
def eid_sample : String := "evt-1"

/-- A sample transient-failure reason. -/
def reason_sample : String := "connection reset by relay"

/-- A sample SMTP reply detail string. -/
def detail_sample : String := "mailbox unavailable"

/-- A send behaviour whose every attempt fails transiently. -/
def send_transient : Nat → DeliveryOutcome :=
  fun _ => .TransientFailure reason_sample

/-- A send behaviour whose every attempt succeeds. -/
def send_sent : Nat → DeliveryOutcome := fun _ => .Sent

/-- The message the sample run hands to the transport. -/
def message_sample : Message :=
  ⟨⟨"dev", "matchapp.fr"⟩, ⟨"user", "example.com"⟩, .textHtml,
    subject_sample, body_sample⟩

/-- The transport the sample run constructs. -/
def transport_sample : AsyncSmtpTransport :=
  ⟨relay_literal, ⟨"alice", "secret"⟩⟩

/-! Helper lemmas. -/

/-- The hardcoded sender literal parses to local part `dev` at domain
`matchapp.fr`. -/
theorem parse_from_email :
    parseAddress from_email_literal = some ⟨"dev", "matchapp.fr"⟩ := by decide

/-- When the first attempt succeeds, the attempt loop stops after exactly one
send, reports `Sent`, schedules nothing, and dead-letters nothing. -/
theorem attemptGo_sent (cfg : DispatcherConfig) (send : Nat → DeliveryOutcome)
    (k n : Nat) (h : send k = .Sent) :
    attemptGo cfg send k n = ⟨.Sent, 1, [], false⟩ := by
  cases n with
  | zero => simp [attemptGo, h]
  | succ n => simp [attemptGo, h]

/-- When every attempt fails transiently, the attempt loop exhausts its whole
budget of `n` retries, issues `n + 1` sends, ends in a `PermanentFailure`
with the transient reason, and dead-letters the event. -/
theorem attemptGo_const_transient (cfg : DispatcherConfig) (r : String)
    (n k : Nat) :
    (attemptGo cfg (fun _ => .TransientFailure r) k n).final
        = .PermanentFailure r ∧
    (attemptGo cfg (fun _ => .TransientFailure r) k n).sendsIssued = n + 1 ∧
    (attemptGo cfg (fun _ => .TransientFailure r) k n).deadLettered = true := by
  induction n generalizing k with
  | zero => exact ⟨rfl, rfl, rfl⟩
  | succ n ih =>
    have h := ih (k + 1)
    simpa [attemptGo] using h

/-- Looking up an event id right after recording an outcome for it returns
that outcome. -/
theorem lookupRecord_cons_self (store : IdemStore) (eid : String)
    (o : DeliveryOutcome) : lookupRecord ((eid, o) :: store) eid = some o := by
  simp [lookupRecord]

/-! Claim theorems. -/

/-- Claim C9: every message `send_email` hands to the transport has the
hardcoded sender `dev@matchapp.fr` and content type text/html, whatever the
`email`, `subject` and `body` arguments are. -/
theorem sender_and_content_type_fixed (env : String → Option String)
    (relayBehavior : Message → Option SendError) (email subject body : String) :
    ∀ m ∈ (send_email env relayBehavior email subject body).sends,
      m.fromAddr = ⟨"dev", "matchapp.fr"⟩ ∧ m.contentType = .textHtml := by
  intro m hm
  cases hp : parseAddress email with
  | none => simp [send_email, parse_from_email, hp] at hm
  | some toAddr =>
    cases hu : env SMTP_USER with
    | none => simp [send_email, parse_from_email, hp, hu, buildMessage] at hm
    | some u =>
      cases hv : env SMTP_PASS with
      | none =>
        simp [send_email, parse_from_email, hp, hu, hv, buildMessage] at hm
      | some p =>
        simp [send_email, parse_from_email, hp, hu, hv, buildMessage] at hm
        subst hm
        exact ⟨rfl, rfl⟩

/-- Witness for C9: on a concrete run that does send, the sent message has
the hardcoded sender and the text/html content type. -/
theorem sender_and_content_type_fixed_witness :
    ∃ m ∈ (send_email env_sample relay_accepts recipient_sample
        subject_sample body_sample).sends,
      m.fromAddr = ⟨"dev", "matchapp.fr"⟩ ∧ m.contentType = .textHtml := by
  have hm : message_sample ∈ (send_email env_sample relay_accepts
      recipient_sample subject_sample body_sample).sends := by decide
  exact ⟨message_sample, hm, sender_and_content_type_fixed env_sample
    relay_accepts recipient_sample subject_sample body_sample
    message_sample hm⟩

/-- Claim C10: a recipient string that does not parse as an email address
makes `send_email` return the parse error immediately: no SMTP transport is
constructed and no message is sent. -/
theorem invalid_recipient_no_send (env : String → Option String)
    (relayBehavior : Message → Option SendError) (email subject body : String)
    (h : parseAddress email = none) :
    (send_email env relayBehavior email subject body).result = .err parse_error ∧
    (send_email env relayBehavior email subject body).transports = [] ∧
    (send_email env relayBehavior email subject body).sends = [] := by
  refine ⟨?_, ?_, ?_⟩ <;> simp [send_email, parse_from_email, h]

/-- Witness for C10: the concrete string `not an address` fails to parse and
the run returns the parse error with no transport and no send. -/
theorem invalid_recipient_no_send_witness :
    (send_email env_sample relay_accepts bad_recipient subject_sample
        body_sample).result = .err parse_error ∧
    (send_email env_sample relay_accepts bad_recipient subject_sample
        body_sample).transports = [] ∧
    (send_email env_sample relay_accepts bad_recipient subject_sample
        body_sample).sends = [] :=
  invalid_recipient_no_send env_sample relay_accepts bad_recipient
    subject_sample body_sample (by decide)

/-- Claim C6: every SMTP transport `send_email` constructs authenticates with
exactly the credentials supplied by the environment collaborator
(`SMTP_USER` and `SMTP_PASS`); in particular no credential is hardcoded, and
no transport exists when the environment supplies none. -/
theorem credential_sourcing (env : String → Option String)
    (relayBehavior : Message → Option SendError) (email subject body : String) :
    ∀ t ∈ (send_email env relayBehavior email subject body).transports,
      env SMTP_USER = some t.creds.user ∧ env SMTP_PASS = some t.creds.pass := by
  intro t ht
  cases hp : parseAddress email with
  | none => simp [send_email, parse_from_email, hp] at ht
  | some toAddr =>
    cases hu : env SMTP_USER with
    | none => simp [send_email, parse_from_email, hp, hu, buildMessage] at ht
    | some u =>
      cases hv : env SMTP_PASS with
      | none =>
        simp [send_email, parse_from_email, hp, hu, hv, buildMessage] at ht
      | some p =>
        simp [send_email, parse_from_email, hp, hu, hv, buildMessage] at ht
        subst ht
        exact ⟨rfl, rfl⟩

/-- Witness for C6: on a concrete run, the constructed transport carries
exactly the environment-supplied credential pair. -/
theorem credential_sourcing_witness :
    ∃ t ∈ (send_email env_sample relay_accepts recipient_sample
        subject_sample body_sample).transports,
      env_sample SMTP_USER = some t.creds.user ∧
      env_sample SMTP_PASS = some t.creds.pass := by
  have ht : transport_sample ∈ (send_email env_sample relay_accepts
      recipient_sample subject_sample body_sample).transports := by decide
  exact ⟨transport_sample, ht, credential_sourcing env_sample relay_accepts
    recipient_sample subject_sample body_sample transport_sample ht⟩

/-- Claim C3: crash containment.  First, `send_email` never panics: on every
input and every relay behaviour its result is a value (`Ok` or `Err`), never
a crash — in particular the `.unwrap()` of mail.rs line 24 can never fire,
because the builder always has both mandatory addresses.  Second, the
Dispatcher pass is total: every `DeliveryOutcome` of an attempt terminates
in a recorded success, a dead-lettered failure, or a scheduled retry. -/
theorem crash_containment :
    (∀ (env : String → Option String)
        (relayBehavior : Message → Option SendError) (email subject body : String),
      ((send_email env relayBehavior email subject body).result).isCrash
          = false) ∧
    (∀ (cfg : DispatcherConfig) (k : Nat) (o : DeliveryOutcome),
      dispatchPass cfg k o = .recordedSuccess ∨
      (∃ r, dispatchPass cfg k o = .deadLettered r) ∨
      (∃ d, dispatchPass cfg k o = .scheduledRetry d)) := by
  constructor
  · intro env relayBehavior email subject body
    cases hp : parseAddress email with
    | none => simp [send_email, parse_from_email, hp, RunResult.isCrash]
    | some toAddr =>
      cases hu : env SMTP_USER with
      | none =>
        simp [send_email, parse_from_email, hp, hu, buildMessage,
          RunResult.isCrash]
      | some u =>
        cases hv : env SMTP_PASS with
        | none =>
          simp [send_email, parse_from_email, hp, hu, hv, buildMessage,
            RunResult.isCrash]
        | some p =>
          cases hr : relayBehavior ⟨⟨"dev", "matchapp.fr"⟩, toAddr,
              ContentType.textHtml, subject, body⟩ with
          | none =>
            simp [send_email, parse_from_email, hp, hu, hv, buildMessage, hr,
              RunResult.isCrash]
          | some e =>
            simp [send_email, parse_from_email, hp, hu, hv, buildMessage, hr,
              RunResult.isCrash]
  · intro cfg k o
    cases o with
    | Sent => exact Or.inl rfl
    | PermanentFailure r => exact Or.inr (Or.inl ⟨r, rfl⟩)
    | TransientFailure r =>
      by_cases h : k < cfg.maxRetries
      · exact Or.inr (Or.inr ⟨backoffDelay cfg k, by simp [dispatchPass, h]⟩)
      · exact Or.inr (Or.inl ⟨r, by simp [dispatchPass, h]⟩)

/-- Claim C4: the Transport-Client classification maps network-level
failures, connection timeouts and SMTP 4xx-class codes to
`TransientFailure`, and SMTP 5xx-class codes, authentication rejection and
malformed-recipient rejection to `PermanentFailure`. -/
theorem failure_classification :
    (∀ d, classify (.networkFailure d) = .TransientFailure d) ∧
    classify .connectionTimeout = .TransientFailure timeout_reason ∧
    (∀ code d, 400 ≤ code → code < 500 →
      classify (.smtpReply code d) = .TransientFailure d) ∧
    (∀ code d, 500 ≤ code →
      classify (.smtpReply code d) = .PermanentFailure d) ∧
    classify .authRejected = .PermanentFailure auth_reason ∧
    classify .malformedRecipient = .PermanentFailure malformed_reason := by
  refine ⟨fun d => rfl, rfl, ?_, ?_, rfl, rfl⟩
  · intro code d h1 h2
    simp [classify, h2]
  · intro code d h
    simp [classify, Nat.not_lt.mpr h]

/-- Witness for C4: the concrete 4xx code 421 classifies as transient and
the concrete 5xx code 550 as permanent. -/
theorem failure_classification_witness :
    classify (.smtpReply 421 detail_sample) = .TransientFailure detail_sample ∧
    classify (.smtpReply 550 detail_sample) = .PermanentFailure detail_sample :=
  ⟨failure_classification.2.2.1 421 detail_sample (by decide) (by decide),
    failure_classification.2.2.2.1 550 detail_sample (by decide)⟩

/-- Claim C5: when attempt `k` fails transiently and `k < maxRetries`, the
retry scheduled next is delayed by exactly
`min(baseBackoff * backoffMultiplier^(k-1), maxBackoff)`; when
`k ≥ maxRetries`, the failure is treated as a `PermanentFailure` and the
event is dead-lettered. -/
theorem backoff_schedule (cfg : DispatcherConfig)
    (send : Nat → DeliveryOutcome) (k : Nat) (r : String)
    (h : send k = .TransientFailure r) :
    (k < cfg.maxRetries →
      (attemptFrom cfg send k).delays.head? =
        some (min (cfg.baseBackoff * cfg.backoffMultiplier ^ (k - 1))
          cfg.maxBackoff)) ∧
    (cfg.maxRetries ≤ k →
      attemptFrom cfg send k = ⟨.PermanentFailure r, 1, [], true⟩) := by
  constructor
  · intro hk
    obtain ⟨n, hn⟩ : ∃ n, cfg.maxRetries - k = n + 1 :=
      ⟨cfg.maxRetries - k - 1, by omega⟩
    rw [attemptFrom, hn]
    simp [attemptGo, h, backoffDelay]
  · intro hk
    have hn : cfg.maxRetries - k = 0 := by omega
    rw [attemptFrom, hn]
    simp [attemptGo, h]

/-- Witness for C5: with base backoff 100, multiplier 2 and cap 250, the
retry after a transient second attempt is delayed by
`min(100 * 2^1, 250) = 200`. -/
theorem backoff_schedule_witness :
    (attemptFrom cfg_sample send_transient 2).delays.head? =
      some (min (cfg_sample.baseBackoff * cfg_sample.backoffMultiplier ^ (2 - 1))
        cfg_sample.maxBackoff) :=
  (backoff_schedule cfg_sample send_transient 2 reason_sample rfl).1 (by decide)

/-- Claim C2: an event whose send always fails transiently is attempted
exactly `maxRetries` times, ends in a `PermanentFailure`, is routed to the
dead-letter sink, and — its outcome being recorded — is never sent again on
any later redelivery. -/
theorem retry_bound (cfg : DispatcherConfig) (eid : String) (r : String)
    (h : 1 ≤ cfg.maxRetries) :
    (processEvent cfg [] eid (fun _ => .TransientFailure r)).sendCount
        = cfg.maxRetries ∧
    (processEvent cfg [] eid (fun _ => .TransientFailure r)).final
        = .PermanentFailure r ∧
    (processEvent cfg [] eid (fun _ => .TransientFailure r)).deadLettered
        = true ∧
    (∀ send2 : Nat → DeliveryOutcome,
      (processEvent cfg
        (processEvent cfg [] eid (fun _ => .TransientFailure r)).store
        eid send2).sendCount = 0) := by
  have hgo := attemptGo_const_transient cfg r (cfg.maxRetries - 1) 1
  have hcount : cfg.maxRetries - 1 + 1 = cfg.maxRetries := by omega
  refine ⟨?_, ?_, ?_, ?_⟩
  · simp only [processEvent, lookupRecord, attemptFrom]
    rw [hgo.2.1, hcount]
  · simp only [processEvent, lookupRecord, attemptFrom]
    exact hgo.1
  · simp only [processEvent, lookupRecord, attemptFrom]
    exact hgo.2.2
  · intro send2
    simp only [processEvent, lookupRecord, attemptFrom]
    rw [hgo.1]
    simp [lookupRecord_cons_self]

/-- Witness for C2: with `maxRetries = 3`, the always-transient event is
sent exactly 3 times, dead-lettered as permanent, and a redelivery issues
no further send. -/
theorem retry_bound_witness :
    (processEvent cfg_sample [] eid_sample
        (fun _ => .TransientFailure reason_sample)).sendCount
        = cfg_sample.maxRetries ∧
    (processEvent cfg_sample [] eid_sample
        (fun _ => .TransientFailure reason_sample)).final
        = .PermanentFailure reason_sample ∧
    (processEvent cfg_sample [] eid_sample
        (fun _ => .TransientFailure reason_sample)).deadLettered = true ∧
    (∀ send2 : Nat → DeliveryOutcome,
      (processEvent cfg_sample
        (processEvent cfg_sample [] eid_sample
          (fun _ => .TransientFailure reason_sample)).store
        eid_sample send2).sendCount = 0) :=
  retry_bound cfg_sample eid_sample reason_sample (by decide)

/-- Claim C1: idempotent suppression of duplicate sends.  Processing an
event whose first attempt succeeds issues exactly one send and records
exactly one `Sent` entry; reprocessing the same `eventId` (broker
redelivery) issues no send and leaves the store unchanged; and in general
any event id recorded `Sent` in the store is never sent again. -/
theorem idempotent_duplicate_suppression (cfg : DispatcherConfig)
    (eid : String) (send send2 : Nat → DeliveryOutcome)
    (h : send 1 = .Sent) :
    (processEvent cfg [] eid send).sendCount = 1 ∧
    (processEvent cfg [] eid send).store = [(eid, .Sent)] ∧
    (processEvent cfg (processEvent cfg [] eid send).store eid send2).sendCount
        = 0 ∧
    (processEvent cfg (processEvent cfg [] eid send).store eid send2).store
        = [(eid, .Sent)] ∧
    (∀ (store : IdemStore) (send3 : Nat → DeliveryOutcome),
      lookupRecord store eid = some .Sent →
        (processEvent cfg store eid send3).sendCount = 0) := by
  have hgo : attemptFrom cfg send 1 = ⟨.Sent, 1, [], false⟩ :=
    attemptGo_sent cfg send 1 (cfg.maxRetries - 1) h
  have hfirst : processEvent cfg [] eid send =
      ⟨[(eid, .Sent)], .Sent, 1, false, []⟩ := by
    simp only [processEvent, lookupRecord, attemptFrom] at hgo ⊢
    rw [hgo]
  refine ⟨?_, ?_, ?_, ?_, ?_⟩
  · rw [hfirst]
  · rw [hfirst]
  · rw [hfirst]
    simp [processEvent, lookupRecord_cons_self]
  · rw [hfirst]
    simp [processEvent, lookupRecord_cons_self]
  · intro store send3 hstore
    simp [processEvent, hstore]

/-- Witness for C1: a concrete event whose send succeeds immediately is sent
once, its redelivery is suppressed, and the store holds one `Sent` record. -/
theorem idempotent_duplicate_suppression_witness :
    (processEvent cfg_sample [] eid_sample send_sent).sendCount = 1 ∧
    (processEvent cfg_sample [] eid_sample send_sent).store
        = [(eid_sample, .Sent)] ∧
    (processEvent cfg_sample
      (processEvent cfg_sample [] eid_sample send_sent).store
      eid_sample send_sent).sendCount = 0 ∧
    (processEvent cfg_sample
      (processEvent cfg_sample [] eid_sample send_sent).store
      eid_sample send_sent).store = [(eid_sample, .Sent)] ∧
    (∀ (store : IdemStore) (send3 : Nat → DeliveryOutcome),
      lookupRecord store eid_sample = some .Sent →
        (processEvent cfg_sample store eid_sample send3).sendCount = 0) :=
  idempotent_duplicate_suppression cfg_sample eid_sample send_sent send_sent
    rfl

/-- Claim C7: with `maxConcurrentSends = N`, no reachable pool state — even
starting from a burst of `10 * N` simultaneous events — has more than `N`
sends in flight. -/
theorem backpressure_bound (N : Nat) (s : PoolState)
    (h : PoolReachable N (10 * N) s) : s.inFlight ≤ N := by
  unfold PoolReachable at h
  induction h with
  | refl => exact Nat.zero_le N
  | tail _ hstep ih =>
    cases hstep with
    | acquire hp hf => exact hf
    | release ht => exact Nat.le_trans (Nat.sub_le _ _) ih

/-- Witness for C7: with `N = 3` and a burst of 30 events, the state after
one slot acquisition is reachable and has at most 3 sends in flight. -/
theorem backpressure_bound_witness : (PoolState.mk 29 1).inFlight ≤ 3 :=
  backpressure_bound 3 ⟨29, 1⟩
    (Relation.ReflTransGen.tail Relation.ReflTransGen.refl
      (PoolStep.acquire ⟨30, 0⟩ (by decide) (by decide)))

/-- In every reachable consumer state, an event that is resolved or
acknowledged carries a terminal outcome. -/
theorem consumer_invariant (s : ConsumerState) (h : ConsumerReachable s) :
    ∀ (eid : String) (o : DeliveryOutcome),
      (s eid = .resolved o → o.isTerminal = true) ∧
      (s eid = .acked o → o.isTerminal = true) := by
  unfold ConsumerReachable at h
  induction h with
  | refl =>
    intro eid o
    constructor <;> intro hc <;> simp [consumerInit] at hc
  | tail _ hstep ih =>
    intro eid o
    cases hstep with
    | dispatch e he =>
      by_cases hx : eid = e
      · subst hx
        constructor <;> intro hc <;> simp [setStatus] at hc
      · constructor <;> intro hc
        · exact (ih eid o).1 (by simpa [setStatus, hx] using hc)
        · exact (ih eid o).2 (by simpa [setStatus, hx] using hc)
    | resolve e o0 he ht =>
      by_cases hx : eid = e
      · subst hx
        constructor <;> intro hc
        · have : o0 = o := by simpa [setStatus] using hc
          exact this ▸ ht
        · simp [setStatus] at hc
      · constructor <;> intro hc
        · exact (ih eid o).1 (by simpa [setStatus, hx] using hc)
        · exact (ih eid o).2 (by simpa [setStatus, hx] using hc)
    | acknowledge e o0 he =>
      by_cases hx : eid = e
      · subst hx
        constructor <;> intro hc
        · simp [setStatus] at hc
        · have : o0 = o := by simpa [setStatus] using hc
          exact this ▸ (ih _ o0).1 he
      · constructor <;> intro hc
        · exact (ih eid o).1 (by simpa [setStatus, hx] using hc)
        · exact (ih eid o).2 (by simpa [setStatus, hx] using hc)

/-- Claim C8: the Consumer never acknowledges an event before the Dispatcher
reports a terminal `DeliveryOutcome` for it.  First, in every reachable
consumer state an acknowledged event carries a terminal reported outcome;
second, any step that newly acknowledges an event starts from a state in
which that event was already resolved with that terminal outcome. -/
theorem ack_discipline :
    (∀ s, ConsumerReachable s → ∀ (eid : String) (o : DeliveryOutcome),
      s eid = .acked o → o.isTerminal = true) ∧
    (∀ s t, ConsumerStep s t → ∀ (eid : String) (o : DeliveryOutcome),
      t eid = .acked o → s eid ≠ .acked o → s eid = .resolved o) := by
  constructor
  · intro s hs eid o hack
    exact (consumer_invariant s hs eid o).2 hack
  · intro s t hstep eid o hacked hne
    cases hstep with
    | dispatch e he =>
      by_cases hx : eid = e
      · subst hx
        simp [setStatus] at hacked
      · exact absurd (by simpa [setStatus, hx] using hacked) hne
    | resolve e o0 he ht =>
      by_cases hx : eid = e
      · subst hx
        simp [setStatus] at hacked
      · exact absurd (by simpa [setStatus, hx] using hacked) hne
    | acknowledge e o0 he =>
      by_cases hx : eid = e
      · subst hx
        have : o0 = o := by simpa [setStatus] using hacked
        exact this ▸ he
      · exact absurd (by simpa [setStatus, hx] using hacked) hne

/-- State after the Consumer hands the sample event to the Dispatcher. -/
def consumer_s1 : ConsumerState := setStatus consumerInit eid_sample .inFlight

/-- State after the Dispatcher reports the sample event terminally `Sent`. -/
def consumer_s2 : ConsumerState :=
  setStatus consumer_s1 eid_sample (.resolved .Sent)

/-- State after the Consumer acknowledges the sample event. -/
def consumer_s3 : ConsumerState :=
  setStatus consumer_s2 eid_sample (.acked .Sent)

/-- Witness for C8: along the concrete dispatch-resolve-acknowledge trace of
one event, the acknowledged outcome is terminal. -/
theorem ack_discipline_witness : DeliveryOutcome.isTerminal .Sent = true := by
  have h1 : ConsumerStep consumerInit consumer_s1 :=
    ConsumerStep.dispatch consumerInit eid_sample rfl
  have h2 : ConsumerStep consumer_s1 consumer_s2 :=
    ConsumerStep.resolve consumer_s1 eid_sample .Sent
      (by simp [consumer_s1, setStatus]) rfl
  have h3 : ConsumerStep consumer_s2 consumer_s3 :=
    ConsumerStep.acknowledge consumer_s2 eid_sample .Sent
      (by simp [consumer_s2, setStatus])
  have hreach : ConsumerReachable consumer_s3 :=
    Relation.ReflTransGen.tail (Relation.ReflTransGen.tail
      (Relation.ReflTransGen.tail Relation.ReflTransGen.refl h1) h2) h3
  exact ack_discipline.1 consumer_s3 hreach eid_sample .Sent
    (by simp [consumer_s3, setStatus])

end MailService
